import Mathlib

/-
Verification of the F5 configuration-comparison engine
(`lambda-package/lambda_function.py`).

The Python core is shallowly embedded below.  Strings are modelled by
`String` / `List Char` (ASCII behaviour of `str.lower`, `\d`, `\w` and the
whitespace set; the configuration text this tool processes is ASCII).
Python dictionaries are modelled by insertion-ordered association lists
(`List (String × String)`), and the two regular expressions of the source
are modelled by explicit character-level matchers that implement the exact
leftmost / maximal-digit-run semantics those patterns have.
Rational numbers stand for the (exact) arithmetic of `analyze_patterns`.
-/

/-- ASCII decimal digit, the characters matched by the Python patterns with `\d`. -/
def isDigitC (c : Char) : Bool := '0' ≤ c && c ≤ '9'

/-- The whitespace characters recognised by Python's `str.strip` /
`str.split(None)` (ASCII fragment). -/
def isPyWs (c : Char) : Bool :=
  c = ' ' || c = '\t' || c = '\n' || c = '\r' || c = '\x0b' || c = '\x0c'

/-- Word character for the `\b` boundary of the IP regex: `[A-Za-z0-9_]`. -/
def isWordChar (c : Char) : Bool := c.isAlphanum || c = '_'

/-- `str.lower` on one character (ASCII). -/
def toLowerC (c : Char) : Char :=
  if 'A' ≤ c && c ≤ 'Z' then Char.ofNat (c.toNat + 32) else c

/-- `str.lower` (ASCII fragment of Python's Unicode lowering). -/
def toLowerS (s : String) : String := (s.data.map toLowerC).asString

/-- `str.startswith(pre)`. -/
def startsWithS (s pre : String) : Bool := pre.data.isPrefixOf s.data

/-- `str.split(sep)` for a one-character separator (as used with `'\n'` and
`'/'`): splitting never drops empty pieces, and the empty string yields
one empty piece. -/
def splitChar (sep : Char) : List Char → List (List Char)
  | [] => [[]]
  | c :: t =>
    let r := splitChar sep t
    if c = sep then [] :: r
    else
      match r with
      | [] => [[c]]
      | h :: t2 => (c :: h) :: t2

/-- `str.strip()` on the character list: drop leading and trailing whitespace. -/
def pyStripL (l : List Char) : List Char :=
  ((l.dropWhile isPyWs).reverse.dropWhile isPyWs).reverse

/-- `str.strip()`. -/
def pyStrip (s : String) : String := (pyStripL s.data).asString

/-- `needle in hay` for character lists: some suffix of `hay` starts with
`needle`. -/
def isInfixL (needle : List Char) : List Char → Bool
  | [] => needle.isEmpty
  | c :: t => needle.isPrefixOf (c :: t) || isInfixL needle t

/-- Python's `needle in hay` substring test. -/
def isSubstr (needle hay : String) : Bool := isInfixL needle.data hay.data

/-
The site patterns `10\.100\.(\d+\.\d+)` and `10\.200\.(\d+\.\d+)`:
a fixed literal prefix followed by a maximal run of digits, a dot and a
second maximal run of digits (`\d+` is greedy, and since a digit run can
never contain the following `.` no backtracking arises).
-/

/-- Try to match `pre ++ \d+ . \d+` at the head of `s`.  Returns the captured
group (the two digit runs with the dot) and the total matched length. -/
def matchPatAt (pre s : List Char) : Option (List Char × Nat) :=
  if s.take pre.length = pre then
    let r := s.drop pre.length
    let d1 := r.takeWhile isDigitC
    if d1.isEmpty then none
    else
      match r.drop d1.length with
      | '.' :: r2 =>
        let d2 := r2.takeWhile isDigitC
        if d2.isEmpty then none
        else some (d1 ++ '.' :: d2, pre.length + d1.length + 1 + d2.length)
      | _ => none
  else none

/-- `re.search`: the captured group of the leftmost match, if any.  The
pattern always consumes at least one character, so the empty string never
matches. -/
def searchPat (pre : List Char) : List Char → Option (List Char)
  | [] => none
  | c :: t =>
    match matchPatAt pre (c :: t) with
    | some (g, _) => some g
    | none => searchPat pre (t : List Char)

/-- `re.sub` worker: scan left to right, replacing every non-overlapping
match by `repl` and resuming after it.  `fuel` bounds the recursion; every
step consumes at least one character (a successful match has positive
length because its digit runs are non-empty), so `fuel = s.length`
suffices and the fallback branch is never reached. -/
def subPatAux (pre repl : List Char) : Nat → List Char → List Char
  | _, [] => []
  | 0, s => s
  | fuel + 1, c :: t =>
    match matchPatAt pre (c :: t) with
    | some (_, len) => repl ++ subPatAux pre repl fuel (t.drop (len - 1))
    | none => c :: subPatAux pre repl fuel t

/-- `re.sub(pattern, repl, s)` with a constant replacement string. -/
def subPat (pre repl s : List Char) : List Char := subPatAux pre repl s.length s

/-- `normalize_site_ip`: rewrite a site-specific address to a site-neutral
form.  The replacement text is built from the captured group of the
leftmost match, exactly as the Python f-string `SITE.{host_part}` is. -/
def normalize_site_ip (ip_str : String) : String × String :=
  let s := ip_str.data
  let njPre := ("10.100.").data
  let hrzPre := ("10.200.").data
  match searchPat njPre s with
  | some host => ((subPat njPre (("SITE.").data ++ host) s).asString, ("NJ"))
  | none =>
    match searchPat hrzPre s with
    | some host => ((subPat hrzPre (("SITE.").data ++ host) s).asString, ("HRZ"))
    | none => (ip_str, ("OTHER"))

/-- The decision core of `classify_ip_difference`, on the two normalized
addresses and their site tags. -/
def classifyCore (n1 s1 n2 s2 : String) : Bool × String :=
  if n1 = n2 then (false, ("MATCH"))
  else if (s1 = ("NJ") ∨ s1 = ("HRZ")) ∧ (s2 = ("NJ") ∨ s2 = ("HRZ")) then
    if s1 = s2 then (true, ("CRITICAL")) else (true, ("WARNING"))
  else (true, ("CRITICAL"))

/-- `classify_ip_difference`: `(is_different, severity)`. -/
def classify_ip_difference (ip1 ip2 : String) : Bool × String :=
  let p1 := normalize_site_ip ip1
  let p2 := normalize_site_ip ip2
  classifyCore p1.1 p1.2 p2.1 p2.2

/-
`is_ip_address`: a search for the word-bounded dotted-quad pattern (four 1-to-3 digit runs).
At a fixed start position the match is determined: each `\d{1,3}` before a
literal `.` must cover the whole digit run there (a shorter choice leaves a
digit where the `.` is required), and the final `\d{1,3}` must cover its
whole run (a shorter choice puts a digit on both sides of the closing
`\b`).  So a run of length outside `1..3` fails the position outright.
-/

/-- Match `\d{1,3}` then (`dots` times) a literal `.` and another such run,
ending on a `\b` boundary. -/
def ipTail : Nat → List Char → Bool
  | 0, s =>
    let r := (s.takeWhile isDigitC).length
    if 1 ≤ r ∧ r ≤ 3 then
      match s.drop r with
      | [] => true
      | c :: _ => !(isWordChar c)
    else false
  | n + 1, s =>
    let r := (s.takeWhile isDigitC).length
    if 1 ≤ r ∧ r ≤ 3 then
      match s.drop r with
      | '.' :: rest => ipTail n rest
      | _ => false
    else false

/-- Scan every start position; `prev` is the character before the current
position, for the leading `\b` boundary. -/
def ipSearch (prev : Option Char) : List Char → Bool
  | [] => false
  | c :: t =>
    ((match prev with
      | none => true
      | some p => !(isWordChar p)) && ipTail 3 (c :: t)) || ipSearch (some c) t

/-- `is_ip_address`: does the value contain a dotted-quad IP address? -/
def is_ip_address (value : String) : Bool := ipSearch none value.data

/-- `get_environment_type`: environment from the display-name prefix. -/
def get_environment_type (vs_name : String) : String :=
  let n := toLowerS vs_name
  if startsWithS n ("prod") then ("PROD")
  else if startsWithS n ("corp") || startsWithS n ("crp") then ("CORP")
  else if startsWithS n ("sb") then ("SANDBOX")
  else ("UNKNOWN")

/-- One row of a comparison record's `configurations` list. -/
structure FieldComparison where
  key : String
  file1 : String
  file2 : String
  isDiff : Bool
  isIP : Bool
  severity : String
deriving DecidableEq, Repr

/-- One element of the list produced by `compare_virtual_servers`. -/
structure ComparisonRecord where
  name : String
  path : String
  environment : String
  hasDifferences : Bool
  isCritical : Bool
  isWarning : Bool
  hasNoRedundancy : Bool
  missingInFile1 : Bool
  missingInFile2 : Bool
  badgeType : String
  configurations : List FieldComparison
deriving DecidableEq, Repr

/-- The per-key body of the field loop of `compare_virtual_servers`.
Returns the appended `FieldComparison` together with the contributions the
iteration makes to `has_differences`, `is_critical` and `is_warning`
(the loop accumulates each flag by disjunction). -/
def compareField (env_type key value1 value2 : String) :
    FieldComparison × Bool × Bool × Bool :=
  if key = ("last-modified-time") ∨ key = ("creation-time") then
    (⟨key, value1, value2, false, false, ("MATCH")⟩, false, false, false)
  else if isSubstr ("destination") (toLowerS key) = true ∧
      value1 ≠ ("(missing)") ∧ value2 ≠ ("(missing)") then
    let c := classify_ip_difference value1 value2
    let isDiff1 : Bool := if c.2 = ("WARNING") then false else c.1
    let sev1 : String := if c.2 = ("WARNING") then ("MATCH") else c.2
    let sev2 : String :=
      if sev1 = ("CRITICAL") ∧
          (env_type = ("CORP") ∨ env_type = ("SANDBOX") ∨ env_type = ("UNKNOWN"))
      then ("WARNING") else sev1
    let isDiff2 : Bool :=
      if sev2 = ("MATCH") then false
      else if sev2 = ("WARNING") then true
      else if sev2 = ("CRITICAL") then true
      else isDiff1
    let warnF : Bool :=
      if sev2 = ("MATCH") then false
      else if sev2 = ("WARNING") then true
      else false
    let critF : Bool :=
      if sev2 = ("MATCH") then false
      else if sev2 = ("WARNING") then false
      else if sev2 = ("CRITICAL") then true
      else false
    (⟨key, value1, value2, isDiff2, true,
        if isDiff2 = true then sev2 else ("MATCH")⟩,
      warnF || critF, critF, warnF)
  else
    let isDiffB : Bool := if value1 = value2 then false else true
    let isIPB : Bool := is_ip_address value1 || is_ip_address value2
    let critF : Bool :=
      if value1 = value2 then false
      else if env_type = ("PROD") ∧
          (value1 = ("(missing)") ∨ value2 = ("(missing)")) then true
      else false
    let warnF : Bool :=
      if value1 = value2 then false
      else if env_type = ("PROD") ∧
          (value1 = ("(missing)") ∨ value2 = ("(missing)")) then false
      else if env_type = ("PROD") then true
      else if env_type = ("CORP") ∨ env_type = ("SANDBOX") then true
      else false
    let sevN : String :=
      if value1 ≠ value2 ∧ env_type = ("PROD") ∧
          (value1 = ("(missing)") ∨ value2 = ("(missing)")) then ("CRITICAL")
      else if value1 ≠ value2 then ("WARNING")
      else ("MATCH")
    (⟨key, value1, value2, isDiffB, isIPB, sevN⟩, isDiffB, critF, warnF)

/-- Ascending insertion into a sorted list of strings. -/
def insertSorted (x : String) : List String → List String
  | [] => [x]
  | y :: t =>
    if x.data < y.data ∨ x = y then x :: y :: t else y :: insertSorted x t

/-- `sorted(...)` over strings (code-point lexicographic, as in Python). -/
def sortStrings (l : List String) : List String := l.foldr insertSorted []

/-- `sorted(set(l1) | set(l2))`. -/
def sortedUnionKeys (l1 l2 : List String) : List String :=
  sortStrings (l1 ++ l2).dedup

/-- `vs.get(name, {})` on a set of parsed virtual servers. -/
def cfgOf (vsSet : List (String × List (String × String))) (name : String) :
    List (String × String) :=
  (vsSet.lookup name).getD []

/-- The field loop body applied to one key of the union of the two bodies,
with `(missing)` defaults. -/
def fieldTuple (env_type : String) (c1 c2 : List (String × String))
    (k : String) : FieldComparison × Bool × Bool × Bool :=
  compareField env_type k ((c1.lookup k).getD ("(missing)"))
    ((c2.lookup k).getD ("(missing)"))

/-- Badge determination of `compare_virtual_servers`. -/
def badgeOf (isCrit isWarn hnr : Bool) : String :=
  if isCrit = true then ("CRITICAL")
  else if (isWarn || hnr) = true then ("WARNING")
  else ("MATCH")

/-- `vs_name.split('/')[-1]`. -/
def shortNameOf (vs_name : String) : String :=
  ((splitChar '/' vs_name.data).map List.asString).getLastD vs_name

/-- The environment of a record, from the display name. -/
def envTypeOf (vs_name : String) : String := get_environment_type (shortNameOf vs_name)

/-- `sorted(set(vs_config1.keys()) | set(vs_config2.keys()))`. -/
def keysOf (c1 c2 : List (String × String)) : List String :=
  sortedUnionKeys (c1.map Prod.fst) (c2.map Prod.fst)

/-- The `configurations` list of one record. -/
def configsOf (env_type : String) (c1 c2 : List (String × String)) :
    List FieldComparison :=
  (keysOf c1 c2).map (fun k => (fieldTuple env_type c1 c2 k).1)

/-- `has_differences` accumulated over the field loop. -/
def diffAny (env_type : String) (c1 c2 : List (String × String)) : Bool :=
  (keysOf c1 c2).any (fun k => (fieldTuple env_type c1 c2 k).2.1)

/-- `is_critical` accumulated over the field loop. -/
def critAny (env_type : String) (c1 c2 : List (String × String)) : Bool :=
  (keysOf c1 c2).any (fun k => (fieldTuple env_type c1 c2 k).2.2.1)

/-- `is_warning` accumulated over the field loop. -/
def warnAny (env_type : String) (c1 c2 : List (String × String)) : Bool :=
  (keysOf c1 c2).any (fun k => (fieldTuple env_type c1 c2 k).2.2.2)

/-- The CORP-or-SANDBOX environment test of the final classification. -/
def csFlag (env_type : String) : Bool :=
  if env_type = ("CORP") ∨ env_type = ("SANDBOX") then true else false

/-- `has_no_redundancy`. -/
def hnrOf (c1 c2 : List (String × String)) : Bool := c1.isEmpty || c2.isEmpty

/-- The loop body of `compare_virtual_servers` for one virtual-server name. -/
def buildRecord (vs1 vs2 : List (String × List (String × String)))
    (vs_name : String) : ComparisonRecord :=
  let env_type := envTypeOf vs_name
  let vs_config1 := cfgOf vs1 vs_name
  let vs_config2 := cfgOf vs2 vs_name
  let hnr := hnrOf vs_config1 vs_config2
  let isWarningF :=
    if hnr && csFlag env_type then true else warnAny env_type vs_config1 vs_config2
  let isCriticalF :=
    if hnr && csFlag env_type then false else critAny env_type vs_config1 vs_config2
  ⟨shortNameOf vs_name, vs_name, env_type, diffAny env_type vs_config1 vs_config2,
    isCriticalF, isWarningF, hnr, vs_config1.isEmpty, vs_config2.isEmpty,
    badgeOf isCriticalF isWarningF hnr, configsOf env_type vs_config1 vs_config2⟩

/-- `compare_virtual_servers`: one record per name in the sorted union of
both parsed sets. -/
def compare_virtual_servers (vs1 vs2 : List (String × List (String × String))) :
    List ComparisonRecord :=
  (sortedUnionKeys (vs1.map Prod.fst) (vs2.map Prod.fst)).map (buildRecord vs1 vs2)

/-- Python `dict` assignment `cfg[k] = v`: update in place when the key is
present (keeping its position), append otherwise. -/
def upsert (cfg : List (String × String)) (k v : String) :
    List (String × String) :=
  if cfg.any (fun p => p.1 = k) then
    cfg.map (fun p => if p.1 = k then (k, v) else p)
  else cfg ++ [(k, v)]

/-- `line.split(None, 1)`: at most two parts, splitting at the first run of
whitespace; leading whitespace is skipped and an all-whitespace remainder
yields a single part. -/
def pySplit1 (line : String) : List String :=
  let l1 := line.data.dropWhile isPyWs
  if l1.isEmpty then []
  else
    let tok := l1.takeWhile (fun c => !(isPyWs c))
    let rest := (l1.drop tok.length).dropWhile isPyWs
    if rest.isEmpty then [tok.asString] else [tok.asString, rest.asString]

/-- The body of the key/value loop of `parse_config_block` for one retained
line. -/
def processLine (cfg : List (String × String)) (line : String) :
    List (String × String) :=
  if line = ("") ∨ line = ("\x7b") ∨ line = ("\x7d") then cfg
  else if ' ' ∈ line.data then
    match pySplit1 line with
    | [k, v] => upsert cfg k (pyStrip v)
    | [k] => upsert cfg k ("\x7b")
    | _ => cfg
  else cfg

/-- Net brace count of one line: opening minus closing braces. -/
def braceDelta (line : String) : Int :=
  (line.data.foldl
    (fun (n : Int) c => if c = '{' then n + 1 else if c = '}' then n - 1 else n) 0)

/-- `parse_config_block`: keep the top-level lines of the body (those whose
cumulative brace count is zero after the line), then build the key/value
mapping. -/
def parse_config_block (block_content : String) : List (String × String) :=
  let lines := ((splitChar '\n' (pyStrip block_content).data).map List.asString).map pyStrip
  let block :=
    (lines.foldl
      (fun (acc : Int × List String) line =>
        let bc := acc.1 + braceDelta line
        (bc, if bc = 0 then acc.2 ++ [line] else acc.2))
      ((0 : Int), ([] : List String))).2
  block.foldl processLine []

/-- The output shape of `analyze_patterns` (the fields the claims are
about; the findings lists only repeat these counts in message strings). -/
structure Insights where
  critical_count : Nat
  warning_count : Nat
  match_count : Int
  total_count : Nat
  critical_percentage : ℚ
  warning_percentage : ℚ
  match_percentage : ℚ
  risk_level : String
  assessment : String
deriving DecidableEq, Repr

/-- Python's `round` to an integer: round half to even. -/
def round_half_even (q : ℚ) : ℤ :=
  let n := ⌊q⌋
  let r := q - (n : ℚ)
  if r < 1 / 2 then n
  else if 1 / 2 < r then n + 1
  else if n % 2 = 0 then n else n + 1

/-- `round(q, 1)`. -/
def round1 (q : ℚ) : ℚ := ((round_half_even (q * 10) : ℤ) : ℚ) / 10

/-- `analyze_patterns` (exact-rational model of the float arithmetic). -/
def analyze_patterns (comparison_data : List ComparisonRecord) : Insights :=
  let total_vs := comparison_data.length
  let critical := (comparison_data.filter (fun vs => vs.isCritical)).length
  let warnings := (comparison_data.filter (fun vs => vs.isWarning)).length
  let match_cnt : Int := (total_vs : Int) - (critical : Int) - (warnings : Int)
  let critical_pct : ℚ :=
    if 0 < total_vs then (critical : ℚ) / (total_vs : ℚ) * 100 else 0
  let warning_pct : ℚ :=
    if 0 < total_vs then (warnings : ℚ) / (total_vs : ℚ) * 100 else 0
  let match_pct : ℚ :=
    if 0 < total_vs then (match_cnt : ℚ) / (total_vs : ℚ) * 100 else 0
  let risk : String :=
    if 5 ≤ critical_pct then ("HIGH")
    else if 1 ≤ critical_pct then ("MEDIUM")
    else ("LOW")
  let assess : String :=
    if 5 ≤ critical_pct then ("HIGH RISK - Significant critical issues detected")
    else if 1 ≤ critical_pct then ("MEDIUM RISK - Some critical issues require attention")
    else ("LOW RISK - Minimal critical issues")
  ⟨critical, warnings, match_cnt, total_vs, round1 critical_pct,
    round1 warning_pct, round1 match_pct, risk, assess⟩

/-- The critical percentage as the claims state it:
`critical_count / total_count × 100`, and `0` when the total is `0`. -/
def criticalPct (comparison_data : List ComparisonRecord) : ℚ :=
  if 0 < comparison_data.length then
    ((comparison_data.filter (fun vs => vs.isCritical)).length : ℚ) /
      (comparison_data.length : ℚ) * 100
  else 0

/-- The four classification rules exactly as the specification states them,
for comparison with `classify_ip_difference`. -/
def classify_rules_spec (addr1 addr2 : String) : Bool × String :=
  let p1 := normalize_site_ip addr1
  let p2 := normalize_site_ip addr2
  if p1.1 = p2.1 then (false, ("MATCH"))
  else if (p1.2 = ("NJ") ∨ p1.2 = ("HRZ")) ∧ (p2.2 = ("NJ") ∨ p2.2 = ("HRZ")) ∧
      p1.2 = p2.2 then (true, ("CRITICAL"))
  else if (p1.2 = ("NJ") ∨ p1.2 = ("HRZ")) ∧ (p2.2 = ("NJ") ∨ p2.2 = ("HRZ")) then
    (true, ("WARNING"))
  else (true, ("CRITICAL"))

example : normalize_site_ip ("10.100.50.10:443") = (("SITE.50.10:443"), ("NJ")) := by rfl
example : normalize_site_ip ("10.200.50.10:443") = (("SITE.50.10:443"), ("HRZ")) := by rfl
example : normalize_site_ip ("192.168.1.1:80") = (("192.168.1.1:80"), ("OTHER")) := by rfl
example : classify_ip_difference ("10.100.221.169") ("10.200.221.169") = (false, ("MATCH")) := by rfl
example : classify_ip_difference ("10.100.221.169") ("10.200.221.187") = (true, ("WARNING")) := by rfl
example : classify_ip_difference ("10.100.221.169") ("10.100.221.200") = (true, ("CRITICAL")) := by rfl
example : is_ip_address ("host 10.1.2.3 up") = true := by rfl
example : is_ip_address ("1234.1.1.1") = false := by rfl
example : get_environment_type ("sb_svc2") = ("SANDBOX") := by decide
example : parse_config_block ("foo") = [] := by rfl
example : parse_config_block ("destination 10.1.1.1:443\npool \x7b nested 1 \x7d\nmember x") =
    [(("destination"), ("10.1.1.1:443")), (("pool"), ("\x7b nested 1 \x7d")), (("member"), ("x"))] := by rfl
example :
    (compare_virtual_servers [(("x"), [(("foo"), ("a"))])] [(("x"), [(("foo"), ("b"))])]).map
      (fun r => (r.badgeType, r.hasNoRedundancy, r.configurations.map (fun fc => fc.severity))) =
    [(("MATCH"), false, [("WARNING")])] := by rfl
example :
    (compare_virtual_servers [(("prod_a"), [(("k1"), ("a")), (("k2"), ("x"))])]
        [(("prod_a"), [(("k2"), ("y"))])]).map
      (fun r => (r.isCritical, r.isWarning, r.badgeType)) = [(true, true, ("CRITICAL"))] := by rfl
example :
    (analyze_patterns (compare_virtual_servers [(("prod_a"), [(("k1"), ("a")), (("k2"), ("x"))])]
        [(("prod_a"), [(("k2"), ("y"))])])).match_count = -1 := by rfl
example :
    (compare_virtual_servers [(("sb_a"), [(("destination"), ("10.100.1.1:443"))])]
        [(("sb_a"), [(("destination"), ("10.100.1.2:443"))])]).map
      (fun r => (r.environment, r.badgeType, r.configurations.map (fun fc => (fc.isDiff, fc.severity)))) =
    [(("SANDBOX"), ("WARNING"), [(true, ("WARNING"))])] := by rfl

/-
Lemmas and claim theorems.
-/

/-- The classifier severity is always one of the three levels. -/
theorem classifyCore_sev_mem (n1 s1 n2 s2 : String) :
    (classifyCore n1 s1 n2 s2).2 = ("MATCH") ∨ (classifyCore n1 s1 n2 s2).2 = ("WARNING") ∨
      (classifyCore n1 s1 n2 s2).2 = ("CRITICAL") := by
  unfold classifyCore
  split_ifs <;> simp

/-- `classify_ip_difference` never yields a severity outside the three levels. -/
theorem classify_sev_mem (a b : String) :
    (classify_ip_difference a b).2 = ("MATCH") ∨ (classify_ip_difference a b).2 = ("WARNING") ∨
      (classify_ip_difference a b).2 = ("CRITICAL") := by
  unfold classify_ip_difference
  exact classifyCore_sev_mem _ _ _ _

/-- `classifyCore` agrees with the specification's four-rule cascade. -/
theorem classifyCore_rules (n1 s1 n2 s2 : String) :
    classifyCore n1 s1 n2 s2 =
      (if n1 = n2 then (false, ("MATCH"))
       else if (s1 = ("NJ") ∨ s1 = ("HRZ")) ∧ (s2 = ("NJ") ∨ s2 = ("HRZ")) ∧ s1 = s2 then
         (true, ("CRITICAL"))
       else if (s1 = ("NJ") ∨ s1 = ("HRZ")) ∧ (s2 = ("NJ") ∨ s2 = ("HRZ")) then
         (true, ("WARNING"))
       else (true, ("CRITICAL"))) := by
  unfold classifyCore
  split_ifs <;> first | rfl | tauto

/-- C4: `classify_ip_difference` implements exactly the four specification
rules, and its severity outcome is always a defined value in
MATCH / WARNING / CRITICAL. -/
theorem classify_follows_rules (addr1 addr2 : String) :
    classify_ip_difference addr1 addr2 = classify_rules_spec addr1 addr2 ∧
    ((classify_ip_difference addr1 addr2).2 = ("MATCH") ∨
      (classify_ip_difference addr1 addr2).2 = ("WARNING") ∨
      (classify_ip_difference addr1 addr2).2 = ("CRITICAL")) := by
  exact ⟨classifyCore_rules _ _ _ _, classify_sev_mem addr1 addr2⟩

/-- MATCH and CRITICAL outcomes of the classifier core are symmetric. -/
theorem classifyCore_symm_mc (n1 s1 n2 s2 : String) :
    (((classifyCore n1 s1 n2 s2).2 = ("MATCH")) ↔
      ((classifyCore n2 s2 n1 s1).2 = ("MATCH"))) ∧
    (((classifyCore n1 s1 n2 s2).2 = ("CRITICAL")) ↔
      ((classifyCore n2 s2 n1 s1).2 = ("CRITICAL"))) := by
  unfold classifyCore
  constructor <;> split_ifs <;> first | decide | (exfalso; simp_all)

/-- C9: the MATCH and CRITICAL outcomes of `classify_ip_difference` are
symmetric in the two addresses. -/
theorem classify_match_critical_symm (a b : String) :
    (((classify_ip_difference a b).2 = ("MATCH")) ↔
      ((classify_ip_difference b a).2 = ("MATCH"))) ∧
    (((classify_ip_difference a b).2 = ("CRITICAL")) ↔
      ((classify_ip_difference b a).2 = ("CRITICAL"))) :=
  classifyCore_symm_mc (normalize_site_ip a).1 (normalize_site_ip a).2
    (normalize_site_ip b).1 (normalize_site_ip b).2

/-- The field row always records the key and the two looked-up values. -/
theorem compareField_key_file (env_type key value1 value2 : String) :
    (compareField env_type key value1 value2).1.key = key ∧
    (compareField env_type key value1 value2).1.file1 = value1 ∧
    (compareField env_type key value1 value2).1.file2 = value2 := by
  simp only [compareField]
  split_ifs <;> simp

/-- A field row records severity CRITICAL exactly when its loop iteration
sets `is_critical`. -/
theorem compareField_crit_iff (env_type key value1 value2 : String) :
    ((compareField env_type key value1 value2).1.severity = ("CRITICAL")) ↔
    ((compareField env_type key value1 value2).2.2.1 = true) := by
  simp only [compareField]
  split_ifs <;> simp_all

/-- A field row records `isDiff` exactly when its loop iteration sets
`has_differences`. -/
theorem compareField_isDiff_eq (env_type key value1 value2 : String) :
    (compareField env_type key value1 value2).1.isDiff =
    (compareField env_type key value1 value2).2.1 := by
  have hc := classify_sev_mem value1 value2
  simp only [compareField]
  split_ifs <;> simp_all

/-- In CORP and SANDBOX environments no field iteration can set
`is_critical`. -/
theorem compareField_nonprod_nocrit (env_type key value1 value2 : String)
    (h : env_type = ("CORP") ∨ env_type = ("SANDBOX")) :
    (compareField env_type key value1 value2).2.2.1 = false := by
  simp only [compareField]
  split_ifs <;> simp_all

/-- The row of `fieldTuple` carries the key and the two defaulted values. -/
theorem fieldTuple_key_file (env_type : String) (c1 c2 : List (String × String))
    (k : String) :
    (fieldTuple env_type c1 c2 k).1.key = k ∧
    (fieldTuple env_type c1 c2 k).1.file1 = ((c1.lookup k).getD ("(missing)")) ∧
    (fieldTuple env_type c1 c2 k).1.file2 = ((c2.lookup k).getD ("(missing)")) :=
  compareField_key_file _ _ _ _

/-- Re-running `compareField` on the data stored in a field row reproduces
the row and its flag contributions. -/
theorem fieldTuple_recompute (env_type : String) (c1 c2 : List (String × String))
    (k : String) :
    compareField env_type ((fieldTuple env_type c1 c2 k).1.key)
      ((fieldTuple env_type c1 c2 k).1.file1)
      ((fieldTuple env_type c1 c2 k).1.file2) = fieldTuple env_type c1 c2 k := by
  obtain ⟨h1, h2, h3⟩ := fieldTuple_key_file env_type c1 c2 k
  rw [h1, h2, h3]
  rfl

/-- A record has a CRITICAL field exactly when the loop accumulator
`is_critical` (before the redundancy reset) is set. -/
theorem exists_crit_iff (env_type : String) (c1 c2 : List (String × String)) :
    (∃ fc ∈ configsOf env_type c1 c2, fc.severity = ("CRITICAL")) ↔
    critAny env_type c1 c2 = true := by
  simp only [configsOf, critAny, List.mem_map, List.any_eq_true]
  constructor
  · rintro ⟨fc, ⟨k, hk, rfl⟩, hs⟩
    exact ⟨k, hk, (compareField_crit_iff _ _ _ _).1 hs⟩
  · rintro ⟨k, hk, h⟩
    exact ⟨_, ⟨k, hk, rfl⟩, (compareField_crit_iff _ _ _ _).2 h⟩

/-- A record has a field with `isDiff` exactly when the loop accumulator
`has_differences` is set. -/
theorem exists_diff_iff (env_type : String) (c1 c2 : List (String × String)) :
    (∃ fc ∈ configsOf env_type c1 c2, fc.isDiff = true) ↔
    diffAny env_type c1 c2 = true := by
  simp only [configsOf, diffAny, List.mem_map, List.any_eq_true]
  constructor
  · rintro ⟨fc, ⟨k, hk, rfl⟩, hs⟩
    exact ⟨k, hk, (compareField_isDiff_eq env_type k ((c1.lookup k).getD ("(missing)"))
      ((c2.lookup k).getD ("(missing)"))).symm.trans hs⟩
  · rintro ⟨k, hk, h⟩
    exact ⟨_, ⟨k, hk, rfl⟩, (compareField_isDiff_eq env_type k
      ((c1.lookup k).getD ("(missing)"))
      ((c2.lookup k).getD ("(missing)"))).trans h⟩

/-- A record has a warning-flag-raising field exactly when the loop
accumulator `is_warning` (before the redundancy forcing) is set. -/
theorem exists_warn_iff (env_type : String) (c1 c2 : List (String × String)) :
    (∃ fc ∈ configsOf env_type c1 c2,
        (compareField env_type fc.key fc.file1 fc.file2).2.2.2 = true) ↔
    warnAny env_type c1 c2 = true := by
  simp only [configsOf, warnAny, List.mem_map, List.any_eq_true]
  constructor
  · rintro ⟨fc, ⟨k, hk, rfl⟩, hs⟩
    rw [fieldTuple_recompute] at hs
    exact ⟨k, hk, hs⟩
  · rintro ⟨k, hk, h⟩
    refine ⟨_, ⟨k, hk, rfl⟩, ?_⟩
    rw [fieldTuple_recompute]
    exact h

/-- In CORP and SANDBOX environments the `is_critical` accumulator stays
false. -/
theorem critAny_nonprod (env_type : String) (c1 c2 : List (String × String))
    (h : env_type = ("CORP") ∨ env_type = ("SANDBOX")) :
    critAny env_type c1 c2 = false := by
  simp only [critAny, List.any_eq_false]
  intro k hk
  simp only [Bool.not_eq_true]
  exact compareField_nonprod_nocrit _ _ _ _ h

/-- Projection: badge of a built record. -/
theorem buildRecord_badge (vs1 vs2 : List (String × List (String × String)))
    (n : String) :
    (buildRecord vs1 vs2 n).badgeType =
      badgeOf
        (if hnrOf (cfgOf vs1 n) (cfgOf vs2 n) && csFlag (envTypeOf n) then false
         else critAny (envTypeOf n) (cfgOf vs1 n) (cfgOf vs2 n))
        (if hnrOf (cfgOf vs1 n) (cfgOf vs2 n) && csFlag (envTypeOf n) then true
         else warnAny (envTypeOf n) (cfgOf vs1 n) (cfgOf vs2 n))
        (hnrOf (cfgOf vs1 n) (cfgOf vs2 n)) := rfl

/-- Projection: configurations of a built record. -/
theorem buildRecord_configs (vs1 vs2 : List (String × List (String × String)))
    (n : String) :
    (buildRecord vs1 vs2 n).configurations =
      configsOf (envTypeOf n) (cfgOf vs1 n) (cfgOf vs2 n) := rfl

/-- Projection: environment of a built record. -/
theorem buildRecord_env (vs1 vs2 : List (String × List (String × String)))
    (n : String) :
    (buildRecord vs1 vs2 n).environment = envTypeOf n := rfl

/-- Projection: redundancy flag of a built record. -/
theorem buildRecord_hnr (vs1 vs2 : List (String × List (String × String)))
    (n : String) :
    (buildRecord vs1 vs2 n).hasNoRedundancy = hnrOf (cfgOf vs1 n) (cfgOf vs2 n) := rfl

/-- Projection: difference flag of a built record. -/
theorem buildRecord_hasDiff (vs1 vs2 : List (String × List (String × String)))
    (n : String) :
    (buildRecord vs1 vs2 n).hasDifferences =
      diffAny (envTypeOf n) (cfgOf vs1 n) (cfgOf vs2 n) := rfl

/-- Badge logic over the accumulated flags, given that a record that hits
the CORP/SANDBOX redundancy reset can have no critical field. -/
theorem badgeOf_char (crit0 warn0 hnr cs : Bool) (hcs : cs = true → crit0 = false) :
    ((badgeOf (if hnr && cs then false else crit0) (if hnr && cs then true else warn0)
        hnr = ("CRITICAL")) ↔ crit0 = true) ∧
    ((badgeOf (if hnr && cs then false else crit0) (if hnr && cs then true else warn0)
        hnr = ("WARNING")) ↔ (crit0 = false ∧ (warn0 = true ∨ hnr = true))) ∧
    ((badgeOf (if hnr && cs then false else crit0) (if hnr && cs then true else warn0)
        hnr = ("MATCH")) ↔ (crit0 = false ∧ warn0 = false ∧ hnr = false)) := by
  cases crit0 <;> cases warn0 <;> cases hnr <;> cases cs <;> simp_all [badgeOf]

/-- C1 counterexample: a record whose only field is recorded with severity
WARNING (a differing non-destination field in an UNKNOWN-environment
record), with no redundancy problem, still gets badge MATCH — so
"badgeType = WARNING iff some field is WARNING or hasNoRedundancy" fails
on the code. -/
theorem badge_match_despite_warning_field :
    (compare_virtual_servers [(("x"), [(("foo"), ("a"))])]
        [(("x"), [(("foo"), ("b"))])]).map
      (fun r => (r.badgeType, r.hasNoRedundancy,
        r.configurations.map (fun fc => fc.severity))) =
    [(("MATCH"), false, [("WARNING")])] := by rfl

/-- C1 (amended): `badgeType = CRITICAL` iff some field has severity
CRITICAL; `badgeType = WARNING` iff no field is CRITICAL but some field
raises the record's warning flag or `hasNoRedundancy` holds (a differing
non-destination field of an UNKNOWN-environment record records severity
WARNING without raising the flag); otherwise `badgeType = MATCH`. -/
theorem badgeType_characterization
    (vs1 vs2 : List (String × List (String × String))) (r : ComparisonRecord)
    (hr : r ∈ compare_virtual_servers vs1 vs2) :
    ((r.badgeType = ("CRITICAL")) ↔
      (∃ fc ∈ r.configurations, fc.severity = ("CRITICAL"))) ∧
    ((r.badgeType = ("WARNING")) ↔
      ((¬ ∃ fc ∈ r.configurations, fc.severity = ("CRITICAL")) ∧
        ((∃ fc ∈ r.configurations,
            (compareField r.environment fc.key fc.file1 fc.file2).2.2.2 = true) ∨
          r.hasNoRedundancy = true))) ∧
    ((r.badgeType = ("MATCH")) ↔
      ((¬ ∃ fc ∈ r.configurations, fc.severity = ("CRITICAL")) ∧
        (¬ ∃ fc ∈ r.configurations,
            (compareField r.environment fc.key fc.file1 fc.file2).2.2.2 = true) ∧
        r.hasNoRedundancy = false)) := by
  simp only [compare_virtual_servers, List.mem_map] at hr
  obtain ⟨n, hn, rfl⟩ := hr
  have hcs : csFlag (envTypeOf n) = true →
      critAny (envTypeOf n) (cfgOf vs1 n) (cfgOf vs2 n) = false := by
    intro h
    apply critAny_nonprod
    by_cases h1 : envTypeOf n = ("CORP") ∨ envTypeOf n = ("SANDBOX")
    · exact h1
    · simp [csFlag, h1] at h
  have hb := badgeOf_char (critAny (envTypeOf n) (cfgOf vs1 n) (cfgOf vs2 n))
    (warnAny (envTypeOf n) (cfgOf vs1 n) (cfgOf vs2 n))
    (hnrOf (cfgOf vs1 n) (cfgOf vs2 n)) (csFlag (envTypeOf n)) hcs
  rw [buildRecord_badge, buildRecord_configs, buildRecord_env, buildRecord_hnr,
    exists_crit_iff, exists_warn_iff]
  simp only [Bool.not_eq_true]
  exact hb

/-- C1 witness: the characterization instantiated on a CORP object present
on only one side (redundancy-forced WARNING badge). -/
theorem badgeType_characterization_witness :
    let r : ComparisonRecord :=
      ⟨("corp_s"), ("corp_s"), ("CORP"), true, false, true, true, false, true,
        ("WARNING"), [⟨("k"), ("v"), ("(missing)"), true, false, ("WARNING")⟩]⟩
    ((r.badgeType = ("CRITICAL")) ↔
      (∃ fc ∈ r.configurations, fc.severity = ("CRITICAL"))) ∧
    ((r.badgeType = ("WARNING")) ↔
      ((¬ ∃ fc ∈ r.configurations, fc.severity = ("CRITICAL")) ∧
        ((∃ fc ∈ r.configurations,
            (compareField r.environment fc.key fc.file1 fc.file2).2.2.2 = true) ∨
          r.hasNoRedundancy = true))) ∧
    ((r.badgeType = ("MATCH")) ↔
      ((¬ ∃ fc ∈ r.configurations, fc.severity = ("CRITICAL")) ∧
        (¬ ∃ fc ∈ r.configurations,
            (compareField r.environment fc.key fc.file1 fc.file2).2.2.2 = true) ∧
        r.hasNoRedundancy = false)) :=
  badgeType_characterization [(("corp_s"), [(("k"), ("v"))])] [] _ (by decide)

/-- C10: a record reports `hasDifferences` exactly when one of its fields
is recorded as a difference. -/
theorem hasDifferences_iff_some_field_diff
    (vs1 vs2 : List (String × List (String × String))) (r : ComparisonRecord)
    (hr : r ∈ compare_virtual_servers vs1 vs2) :
    (r.hasDifferences = true) ↔ (∃ fc ∈ r.configurations, fc.isDiff = true) := by
  simp only [compare_virtual_servers, List.mem_map] at hr
  obtain ⟨n, hn, rfl⟩ := hr
  rw [buildRecord_hasDiff, buildRecord_configs, exists_diff_iff]

/-- C10 witness: a record whose only fields are differing timestamps has
no recorded difference. -/
theorem hasDifferences_iff_witness :
    let r : ComparisonRecord :=
      ⟨("a"), ("a"), ("UNKNOWN"), false, false, false, false, false, false,
        ("MATCH"), [⟨("creation-time"), ("x"), ("y"), false, false, ("MATCH")⟩]⟩
    (r.hasDifferences = true) ↔ (∃ fc ∈ r.configurations, fc.isDiff = true) :=
  hasDifferences_iff_some_field_diff [(("a"), [(("creation-time"), ("x"))])]
    [(("a"), [(("creation-time"), ("y"))])] _ (by decide)

/-- The timestamp branch of the field loop: unconditional MATCH row. -/
theorem compareField_timestamp (env_type k v1 v2 : String)
    (hk : k = ("last-modified-time") ∨ k = ("creation-time")) :
    compareField env_type k v1 v2 =
      (⟨k, v1, v2, false, false, ("MATCH")⟩, false, false, false) := by
  simp only [compareField]
  rw [if_pos hk]

/-- C3: both timestamp keys always produce a MATCH row with no difference,
whatever the two values and the environment are. -/
theorem timestamp_fields_always_match
    (vs1 vs2 : List (String × List (String × String))) (r : ComparisonRecord)
    (hr : r ∈ compare_virtual_servers vs1 vs2) (fc : FieldComparison)
    (hfc : fc ∈ r.configurations)
    (hk : fc.key = ("last-modified-time") ∨ fc.key = ("creation-time")) :
    fc.isDiff = false ∧ fc.severity = ("MATCH") := by
  simp only [compare_virtual_servers, List.mem_map] at hr
  obtain ⟨n, hn, rfl⟩ := hr
  rw [buildRecord_configs] at hfc
  simp only [configsOf, List.mem_map] at hfc
  obtain ⟨k, hkmem, rfl⟩ := hfc
  rw [(fieldTuple_key_file (envTypeOf n) (cfgOf vs1 n) (cfgOf vs2 n) k).1] at hk
  have h : fieldTuple (envTypeOf n) (cfgOf vs1 n) (cfgOf vs2 n) k =
      (⟨k, ((cfgOf vs1 n).lookup k).getD ("(missing)"),
        ((cfgOf vs2 n).lookup k).getD ("(missing)"), false, false, ("MATCH")⟩,
        false, false, false) :=
    compareField_timestamp (envTypeOf n) k _ _ hk
  rw [h]
  exact ⟨rfl, rfl⟩

/-- C3 witness: differing timestamp values in a PROD record. -/
theorem timestamp_fields_always_match_witness :
    (⟨("creation-time"), ("2024"), ("2025"), false, false, ("MATCH")⟩
        : FieldComparison).isDiff = false ∧
    (⟨("creation-time"), ("2024"), ("2025"), false, false, ("MATCH")⟩
        : FieldComparison).severity = ("MATCH") :=
  timestamp_fields_always_match [(("prod_t"), [(("creation-time"), ("2024"))])]
    [(("prod_t"), [(("creation-time"), ("2025"))])]
    ⟨("prod_t"), ("prod_t"), ("PROD"), false, false, false, false, false, false,
      ("MATCH"), [⟨("creation-time"), ("2024"), ("2025"), false, false, ("MATCH")⟩]⟩
    (by decide) _ (by decide) (by decide)

/-- The destination branch when the classifier says WARNING: overridden to
a MATCH row with no difference and no flag contribution. -/
theorem compareField_dest_warning (env_type k v1 v2 : String)
    (hdest : isSubstr ("destination") (toLowerS k) = true)
    (h1 : v1 ≠ ("(missing)")) (h2 : v2 ≠ ("(missing)"))
    (hcls : (classify_ip_difference v1 v2).2 = ("WARNING")) :
    compareField env_type k v1 v2 =
      (⟨k, v1, v2, false, true, ("MATCH")⟩, false, false, false) := by
  have hk : ¬(k = ("last-modified-time") ∨ k = ("creation-time")) := by
    rintro (rfl | rfl) <;> exact absurd hdest (by decide)
  simp only [compareField]
  rw [if_neg hk, if_pos ⟨hdest, h1, h2⟩]
  simp [hcls]

/-- The destination branch when the classifier says CRITICAL and the
environment is CORP, SANDBOX or UNKNOWN: downgraded to a WARNING row that
raises the warning flag only. -/
theorem compareField_dest_crit_nonprod (env_type k v1 v2 : String)
    (hdest : isSubstr ("destination") (toLowerS k) = true)
    (h1 : v1 ≠ ("(missing)")) (h2 : v2 ≠ ("(missing)"))
    (hcls : (classify_ip_difference v1 v2).2 = ("CRITICAL"))
    (henv : env_type = ("CORP") ∨ env_type = ("SANDBOX") ∨ env_type = ("UNKNOWN")) :
    compareField env_type k v1 v2 =
      (⟨k, v1, v2, true, true, ("WARNING")⟩, true, false, true) := by
  have hk : ¬(k = ("last-modified-time") ∨ k = ("creation-time")) := by
    rintro (rfl | rfl) <;> exact absurd hdest (by decide)
  simp only [compareField]
  rw [if_neg hk, if_pos ⟨hdest, h1, h2⟩]
  simp [hcls, henv]

/-- The destination branch when the classifier says CRITICAL in PROD: the
row stays CRITICAL and raises the critical flag only. -/
theorem compareField_dest_crit_prod (env_type k v1 v2 : String)
    (hdest : isSubstr ("destination") (toLowerS k) = true)
    (h1 : v1 ≠ ("(missing)")) (h2 : v2 ≠ ("(missing)"))
    (hcls : (classify_ip_difference v1 v2).2 = ("CRITICAL"))
    (henv : env_type = ("PROD")) :
    compareField env_type k v1 v2 =
      (⟨k, v1, v2, true, true, ("CRITICAL")⟩, true, true, false) := by
  have hk : ¬(k = ("last-modified-time") ∨ k = ("creation-time")) := by
    rintro (rfl | rfl) <;> exact absurd hdest (by decide)
  simp only [compareField]
  rw [if_neg hk, if_pos ⟨hdest, h1, h2⟩]
  subst henv
  simp [hcls]

/-- C5: a destination field with both values present whose classification
is WARNING (cross-site, different host) is recorded as MATCH with no
difference, in every environment, and contributes to neither `isWarning`
nor `isCritical`. -/
theorem cross_site_warning_overridden_to_match
    (vs1 vs2 : List (String × List (String × String))) (r : ComparisonRecord)
    (hr : r ∈ compare_virtual_servers vs1 vs2) (fc : FieldComparison)
    (hfc : fc ∈ r.configurations)
    (hdest : isSubstr ("destination") (toLowerS fc.key) = true)
    (h1 : fc.file1 ≠ ("(missing)")) (h2 : fc.file2 ≠ ("(missing)"))
    (hcls : (classify_ip_difference fc.file1 fc.file2).2 = ("WARNING")) :
    fc.severity = ("MATCH") ∧ fc.isDiff = false ∧
    (compareField r.environment fc.key fc.file1 fc.file2).2.2.2 = false ∧
    (compareField r.environment fc.key fc.file1 fc.file2).2.2.1 = false := by
  simp only [compare_virtual_servers, List.mem_map] at hr
  obtain ⟨n, hn, rfl⟩ := hr
  rw [buildRecord_configs] at hfc
  simp only [configsOf, List.mem_map] at hfc
  obtain ⟨k, hkmem, rfl⟩ := hfc
  obtain ⟨hK, hF1, hF2⟩ := fieldTuple_key_file (envTypeOf n) (cfgOf vs1 n) (cfgOf vs2 n) k
  rw [hK] at hdest
  rw [hF1] at h1
  rw [hF2] at h2
  rw [hF1, hF2] at hcls
  have h : fieldTuple (envTypeOf n) (cfgOf vs1 n) (cfgOf vs2 n) k =
      (⟨k, ((cfgOf vs1 n).lookup k).getD ("(missing)"),
        ((cfgOf vs2 n).lookup k).getD ("(missing)"), false, true, ("MATCH")⟩,
        false, false, false) :=
    compareField_dest_warning (envTypeOf n) k _ _ hdest h1 h2 hcls
  rw [buildRecord_env, fieldTuple_recompute, h]
  exact ⟨rfl, rfl, rfl, rfl⟩

/-- C5 witness: a PROD record with a cross-site different-host destination. -/
theorem cross_site_warning_overridden_witness :
    (⟨("destination"), ("10.100.1.1:443"), ("10.200.1.2:443"), false, true,
        ("MATCH")⟩ : FieldComparison).severity = ("MATCH") ∧
    (⟨("destination"), ("10.100.1.1:443"), ("10.200.1.2:443"), false, true,
        ("MATCH")⟩ : FieldComparison).isDiff = false ∧
    (compareField ("PROD") ("destination") ("10.100.1.1:443")
        ("10.200.1.2:443")).2.2.2 = false ∧
    (compareField ("PROD") ("destination") ("10.100.1.1:443")
        ("10.200.1.2:443")).2.2.1 = false :=
  cross_site_warning_overridden_to_match
    [(("prod_x"), [(("destination"), ("10.100.1.1:443"))])]
    [(("prod_x"), [(("destination"), ("10.200.1.2:443"))])]
    ⟨("prod_x"), ("prod_x"), ("PROD"), false, false, false, false, false, false,
      ("MATCH"), [⟨("destination"), ("10.100.1.1:443"), ("10.200.1.2:443"),
        false, true, ("MATCH")⟩]⟩
    (by decide) _ (by decide) (by decide) (by decide) (by decide) (by decide)

/-- C6: a destination field with both values present whose classification
is CRITICAL is downgraded to a WARNING row (raising only the warning flag)
when the record's environment is CORP, SANDBOX or UNKNOWN, and stays a
CRITICAL row (raising only the critical flag) exactly in PROD. -/
theorem critical_downgraded_outside_prod
    (vs1 vs2 : List (String × List (String × String))) (r : ComparisonRecord)
    (hr : r ∈ compare_virtual_servers vs1 vs2) (fc : FieldComparison)
    (hfc : fc ∈ r.configurations)
    (hdest : isSubstr ("destination") (toLowerS fc.key) = true)
    (h1 : fc.file1 ≠ ("(missing)")) (h2 : fc.file2 ≠ ("(missing)"))
    (hcls : (classify_ip_difference fc.file1 fc.file2).2 = ("CRITICAL")) :
    ((r.environment = ("CORP") ∨ r.environment = ("SANDBOX") ∨
        r.environment = ("UNKNOWN")) →
      fc.severity = ("WARNING") ∧ fc.isDiff = true ∧
      (compareField r.environment fc.key fc.file1 fc.file2).2.2.2 = true ∧
      (compareField r.environment fc.key fc.file1 fc.file2).2.2.1 = false) ∧
    (r.environment = ("PROD") →
      fc.severity = ("CRITICAL") ∧ fc.isDiff = true ∧
      (compareField r.environment fc.key fc.file1 fc.file2).2.2.1 = true ∧
      (compareField r.environment fc.key fc.file1 fc.file2).2.2.2 = false) := by
  simp only [compare_virtual_servers, List.mem_map] at hr
  obtain ⟨n, hn, rfl⟩ := hr
  rw [buildRecord_configs] at hfc
  simp only [configsOf, List.mem_map] at hfc
  obtain ⟨k, hkmem, rfl⟩ := hfc
  obtain ⟨hK, hF1, hF2⟩ := fieldTuple_key_file (envTypeOf n) (cfgOf vs1 n) (cfgOf vs2 n) k
  rw [hK] at hdest
  rw [hF1] at h1
  rw [hF2] at h2
  rw [hF1, hF2] at hcls
  rw [buildRecord_env, fieldTuple_recompute]
  constructor
  · intro henv
    have h : fieldTuple (envTypeOf n) (cfgOf vs1 n) (cfgOf vs2 n) k =
        (⟨k, ((cfgOf vs1 n).lookup k).getD ("(missing)"),
          ((cfgOf vs2 n).lookup k).getD ("(missing)"), true, true, ("WARNING")⟩,
          true, false, true) :=
      compareField_dest_crit_nonprod (envTypeOf n) k _ _ hdest h1 h2 hcls henv
    rw [h]
    exact ⟨rfl, rfl, rfl, rfl⟩
  · intro henv
    have h : fieldTuple (envTypeOf n) (cfgOf vs1 n) (cfgOf vs2 n) k =
        (⟨k, ((cfgOf vs1 n).lookup k).getD ("(missing)"),
          ((cfgOf vs2 n).lookup k).getD ("(missing)"), true, true, ("CRITICAL")⟩,
          true, true, false) :=
      compareField_dest_crit_prod (envTypeOf n) k _ _ hdest h1 h2 hcls henv
    rw [h]
    exact ⟨rfl, rfl, rfl, rfl⟩

/-- C6 witness: the same same-site different-host destination pair in a
SANDBOX record (downgraded) and the PROD part of the statement on a PROD
record is exercised through the hypothesis side. -/
theorem critical_downgraded_witness :
    (⟨("destination"), ("10.100.1.1:443"), ("10.100.1.2:443"), true, true,
        ("WARNING")⟩ : FieldComparison).severity = ("WARNING") ∧
    (⟨("destination"), ("10.100.1.1:443"), ("10.100.1.2:443"), true, true,
        ("WARNING")⟩ : FieldComparison).isDiff = true ∧
    (compareField ("SANDBOX") ("destination") ("10.100.1.1:443")
        ("10.100.1.2:443")).2.2.2 = true ∧
    (compareField ("SANDBOX") ("destination") ("10.100.1.1:443")
        ("10.100.1.2:443")).2.2.1 = false :=
  (critical_downgraded_outside_prod
    [(("sb_a"), [(("destination"), ("10.100.1.1:443"))])]
    [(("sb_a"), [(("destination"), ("10.100.1.2:443"))])]
    ⟨("sb_a"), ("sb_a"), ("SANDBOX"), true, false, true, false, false, false,
      ("WARNING"), [⟨("destination"), ("10.100.1.1:443"), ("10.100.1.2:443"),
        true, true, ("WARNING")⟩]⟩
    (by decide) _ (by decide) (by decide) (by decide) (by decide) (by decide)).1
    (Or.inr (Or.inl rfl))

/-- C2 counterexample: a PROD record with one missing field (critical) and
one differing field (warning) has both flags set, and the derived match
count of `analyze_patterns` is negative. -/
theorem critical_and_warning_both_true :
    ((compare_virtual_servers [(("prod_a"), [(("k1"), ("a")), (("k2"), ("x"))])]
        [(("prod_a"), [(("k2"), ("y"))])]).map
      (fun r => (r.isCritical, r.isWarning)) = [(true, true)]) ∧
    ((analyze_patterns (compare_virtual_servers
        [(("prod_a"), [(("k1"), ("a")), (("k2"), ("x"))])]
        [(("prod_a"), [(("k2"), ("y"))])])).match_count = -1) :=
  ⟨rfl, rfl⟩

/-- C2 (amended): the three counts of `analyze_patterns` always satisfy
`critical + warning + match = total` with `critical ≤ total` and
`warning ≤ total`, but `isCritical` and `isWarning` are not mutually
exclusive, so `match` can be negative. -/
theorem analyze_counts_partition (vs1 vs2 : List (String × List (String × String))) :
    ((analyze_patterns (compare_virtual_servers vs1 vs2)).critical_count ≤
      (analyze_patterns (compare_virtual_servers vs1 vs2)).total_count) ∧
    ((analyze_patterns (compare_virtual_servers vs1 vs2)).warning_count ≤
      (analyze_patterns (compare_virtual_servers vs1 vs2)).total_count) ∧
    (((analyze_patterns (compare_virtual_servers vs1 vs2)).critical_count : Int) +
      ((analyze_patterns (compare_virtual_servers vs1 vs2)).warning_count : Int) +
      (analyze_patterns (compare_virtual_servers vs1 vs2)).match_count =
      ((analyze_patterns (compare_virtual_servers vs1 vs2)).total_count : Int)) := by
  simp only [analyze_patterns]
  refine ⟨List.length_filter_le _ _, List.length_filter_le _ _, ?_⟩
  omega

/-- `dropWhile` is idempotent. -/
theorem dropWhile_idem (p : Char → Bool) (l : List Char) :
    (l.dropWhile p).dropWhile p = l.dropWhile p := by
  induction l with
  | nil => rfl
  | cons c t ih =>
    by_cases h : p c = true <;> simp [List.dropWhile_cons, h, ih]

/-- A stripped line has no trailing whitespace. -/
theorem pyStripL_no_trailing (l : List Char) :
    (pyStripL l).reverse.dropWhile isPyWs = (pyStripL l).reverse := by
  unfold pyStripL
  rw [List.reverse_reverse]
  exact dropWhile_idem _ _

/-- A stripped line has no leading whitespace. -/
theorem pyStripL_no_leading (l : List Char) :
    (pyStripL l).dropWhile isPyWs = pyStripL l := by
  have hm : (l.dropWhile isPyWs).dropWhile isPyWs = l.dropWhile isPyWs :=
    dropWhile_idem _ _
  have hpre : pyStripL l <+: l.dropWhile isPyWs := by
    have h2 : (l.dropWhile isPyWs).reverse.dropWhile isPyWs <:+
        (l.dropWhile isPyWs).reverse := List.dropWhile_suffix _
    have h3 := List.reverse_prefix.mpr h2
    rwa [List.reverse_reverse] at h3
  cases hd : pyStripL l with
  | nil => rfl
  | cons c t =>
    rw [hd] at hpre
    obtain ⟨rest, hrest⟩ := hpre
    rw [List.dropWhile_cons]
    by_cases hc : isPyWs c = true
    · exfalso
      rw [← hrest] at hm
      rw [List.cons_append, List.dropWhile_cons, if_pos hc] at hm
      have hlen := congrArg List.length hm
      have hle := (List.dropWhile_suffix (l := t ++ rest) isPyWs).sublist.length_le
      have happ : (t ++ rest).length = t.length + rest.length := List.length_append _ _
      simp at hlen
      omega
    · rw [if_neg hc]

/-- C7 counterexample: a retained single-token line (no space character)
produces no entry at all — it is not mapped to the literal `"\x7b"` — while
a two-token line is split into key and value. -/
theorem single_token_line_skipped :
    parse_config_block ("foo") = [] ∧
    parse_config_block ("name value") = [(("name"), ("value"))] :=
  ⟨rfl, rfl⟩

/-- C7 (amended): a stripped retained line containing a space character is
split at its first whitespace run into exactly two parts, the key and the
trimmed remainder; a stripped line with no space character is skipped
outright, so the defensive one-token-to-brace branch never fires. -/
theorem retained_line_split (cfg : List (String × String)) (l : String) :
    ((' ' ∈ (pyStrip l).data) →
      ∃ tok rest, pySplit1 (pyStrip l) = [tok, rest] ∧
        processLine cfg (pyStrip l) = upsert cfg tok (pyStrip rest)) ∧
    ((' ' ∉ (pyStrip l).data) → processLine cfg (pyStrip l) = cfg) := by
  constructor
  · intro hsp0
    have hdata : (pyStrip l).data = pyStripL l.data := rfl
    have hsp : ' ' ∈ pyStripL l.data := hdata ▸ hsp0
    have hL : (pyStripL l.data).dropWhile isPyWs = pyStripL l.data :=
      pyStripL_no_leading l.data
    have hT := pyStripL_no_trailing l.data
    have hdne : pyStripL l.data ≠ [] := by
      intro h
      rw [h] at hsp
      simp at hsp
    have hne : ¬((pyStripL l.data).isEmpty = true) := by
      rw [List.isEmpty_iff]
      exact hdne
    have hrestne :
        ((pyStripL l.data).drop
            ((pyStripL l.data).takeWhile (fun c => !(isPyWs c))).length).dropWhile
          isPyWs ≠ [] := by
      intro hnil
      have hall := List.dropWhile_eq_nil_iff.mp hnil
      have htlt : ((pyStripL l.data).takeWhile (fun c => !(isPyWs c))).length <
          (pyStripL l.data).length := by
        have hle := ( List.takeWhile_prefix
          (l := pyStripL l.data) (fun c => !(isPyWs c))).length_le
        rcases lt_or_eq_of_le hle with h | h
        · exact h
        · exfalso
          have heq : (pyStripL l.data).takeWhile (fun c => !(isPyWs c)) =
              pyStripL l.data :=
            ( List.takeWhile_prefix _).eq_of_length h
          rw [← heq] at hsp
          have := List.mem_takeWhile_imp hsp
          simp [isPyWs] at this
      have hdropne : (pyStripL l.data).drop
          ((pyStripL l.data).takeWhile (fun c => !(isPyWs c))).length ≠ [] := by
        intro h
        have hlen := congrArg List.length h
        rw [List.length_drop] at hlen
        simp at hlen
        omega
      obtain ⟨c0, t0, hs0⟩ : ∃ c0 t0,
          ((pyStripL l.data).drop
            ((pyStripL l.data).takeWhile (fun c => !(isPyWs c))).length).reverse =
            c0 :: t0 := by
        cases hrev : ((pyStripL l.data).drop
            ((pyStripL l.data).takeWhile (fun c => !(isPyWs c))).length).reverse with
        | nil => exact absurd (List.reverse_eq_nil_iff.mp hrev) hdropne
        | cons a b => exact ⟨a, b, rfl⟩
      have hc0 : isPyWs c0 = true := by
        apply hall
        rw [← List.mem_reverse, hs0]
        exact List.mem_cons_self _ _
      have hdrev : (pyStripL l.data).reverse =
          c0 :: (t0 ++ ((pyStripL l.data).take
            ((pyStripL l.data).takeWhile (fun c => !(isPyWs c))).length).reverse) := by
        conv_lhs => rw [← List.take_append_drop
          ((pyStripL l.data).takeWhile (fun c => !(isPyWs c))).length (pyStripL l.data)]
        rw [List.reverse_append, hs0, List.cons_append]
      rw [hdrev, List.dropWhile_cons, if_pos hc0] at hT
      have hlen := congrArg List.length hT
      have hle := (List.dropWhile_suffix
        (l := t0 ++ ((pyStripL l.data).take
          ((pyStripL l.data).takeWhile (fun c => !(isPyWs c))).length).reverse)
        isPyWs).sublist.length_le
      have htk : ((pyStripL l.data).take
          ((pyStripL l.data).takeWhile (fun c => !(isPyWs c))).length).length =
          ((pyStripL l.data).takeWhile (fun c => !(isPyWs c))).length := by
        rw [List.length_take]
        omega
      simp only [List.length_append, List.length_reverse, List.length_cons, htk]
        at hlen hle
      omega
    have hrestne2 : ¬((((pyStripL l.data).drop
        ((pyStripL l.data).takeWhile (fun c => !(isPyWs c))).length).dropWhile
          isPyWs).isEmpty = true) := by
      rw [List.isEmpty_iff]
      exact hrestne
    have hsplit : pySplit1 (pyStrip l) =
        [((pyStripL l.data).takeWhile (fun c => !(isPyWs c))).asString,
          (((pyStripL l.data).drop
            ((pyStripL l.data).takeWhile (fun c => !(isPyWs c))).length).dropWhile
              isPyWs).asString] := by
      simp only [pySplit1, hdata, hL]
      rw [if_neg hne, if_neg hrestne2]
    refine ⟨_, _, hsplit, ?_⟩
    have hnotskip : ¬(pyStrip l = ("") ∨ pyStrip l = ("\x7b") ∨ pyStrip l = ("\x7d")) := by
      rintro (he | he | he) <;> (rw [he] at hsp0; exact absurd hsp0 (by decide))
    simp only [processLine]
    rw [if_neg hnotskip, if_pos hsp0, hsplit]
  · intro hnsp
    simp only [processLine]
    by_cases h1 : (pyStrip l = ("") ∨ pyStrip l = ("\x7b") ∨ pyStrip l = ("\x7d"))
    · rw [if_pos h1]
    · rw [if_neg h1, if_neg hnsp]

/-- C7 witness: the amended statement at a concrete destination line. -/
theorem retained_line_split_witness :
    ∃ tok rest, pySplit1 (pyStrip ("destination 10.1.1.1:443")) = [tok, rest] ∧
      processLine [] (pyStrip ("destination 10.1.1.1:443")) =
        upsert [] tok (pyStrip rest) :=
  (retained_line_split [] ("destination 10.1.1.1:443")).1 (by decide)

/-- C8: `analyze_patterns` derives the risk level from the critical
percentage with thresholds 5.0 (HIGH) and 1.0 (MEDIUM), LOW below 1.0;
all percentages are the rounded count ratios and are 0 for an empty input. -/
theorem risk_level_thresholds (data : List ComparisonRecord) :
    ((analyze_patterns data).risk_level = ("HIGH") ↔ 5 ≤ criticalPct data) ∧
    ((analyze_patterns data).risk_level = ("MEDIUM") ↔
      (1 ≤ criticalPct data ∧ criticalPct data < 5)) ∧
    ((analyze_patterns data).risk_level = ("LOW") ↔ criticalPct data < 1) ∧
    ((analyze_patterns data).critical_percentage = round1 (criticalPct data)) ∧
    (data.length = 0 →
      (analyze_patterns data).critical_percentage = 0 ∧
      (analyze_patterns data).warning_percentage = 0 ∧
      (analyze_patterns data).match_percentage = 0 ∧
      (analyze_patterns data).risk_level = ("LOW")) := by
  have hR : (analyze_patterns data).risk_level =
      (if 5 ≤ criticalPct data then ("HIGH")
       else if 1 ≤ criticalPct data then ("MEDIUM") else ("LOW")) := rfl
  have hP : (analyze_patterns data).critical_percentage =
      round1 (criticalPct data) := rfl
  have hW : (analyze_patterns data).warning_percentage =
      round1 (if 0 < data.length then
        ((data.filter (fun vs => vs.isWarning)).length : ℚ) / (data.length : ℚ) * 100
      else 0) := rfl
  have hM : (analyze_patterns data).match_percentage =
      round1 (if 0 < data.length then
        ((((data.length : Int) - ((data.filter (fun vs => vs.isCritical)).length : Int) -
            ((data.filter (fun vs => vs.isWarning)).length : Int) : Int) : ℚ) /
          (data.length : ℚ) * 100)
      else 0) := rfl
  have h0 : round1 0 = 0 := by
    unfold round1 round_half_even
    norm_num
  refine ⟨?_, ?_, ?_, hP, ?_⟩
  · rw [hR]
    by_cases h5 : (5 : ℚ) ≤ criticalPct data
    · simp [h5]
    · by_cases h1 : (1 : ℚ) ≤ criticalPct data <;> simp [h5, h1]
  · rw [hR]
    by_cases h5 : (5 : ℚ) ≤ criticalPct data
    · simp only [if_pos h5]
      constructor
      · intro h
        exact absurd h (by decide)
      · rintro ⟨h1, h2⟩
        linarith
    · by_cases h1 : (1 : ℚ) ≤ criticalPct data
      · simp only [if_neg h5, if_pos h1]
        simp [h1]
        linarith
      · simp only [if_neg h5, if_neg h1]
        constructor
        · intro h
          exact absurd h (by decide)
        · rintro ⟨hc1, hc2⟩
          exact absurd hc1 h1
  · rw [hR]
    by_cases h5 : (5 : ℚ) ≤ criticalPct data
    · simp only [if_pos h5]
      constructor
      · intro h
        exact absurd h (by decide)
      · intro h
        linarith
    · by_cases h1 : (1 : ℚ) ≤ criticalPct data
      · simp only [if_neg h5, if_pos h1]
        constructor
        · intro h
          exact absurd h (by decide)
        · intro h
          linarith
      · simp only [if_neg h5, if_neg h1]
        simp
        linarith [not_le.mp h1]
  · intro hz
    have hlen0 : ¬(0 < data.length) := by omega
    have hcp0 : criticalPct data = 0 := by
      unfold criticalPct
      rw [if_neg hlen0]
    refine ⟨?_, ?_, ?_, ?_⟩
    · rw [hP, hcp0, h0]
    · rw [hW, if_neg hlen0, h0]
    · rw [hM, if_neg hlen0, h0]
    · rw [hR, hcp0]
      norm_num

/-- C8 witness: the empty comparison has zero percentages and LOW risk. -/
theorem risk_level_thresholds_witness :
    (analyze_patterns ([] : List ComparisonRecord)).critical_percentage = 0 ∧
    (analyze_patterns ([] : List ComparisonRecord)).warning_percentage = 0 ∧
    (analyze_patterns ([] : List ComparisonRecord)).match_percentage = 0 ∧
    (analyze_patterns ([] : List ComparisonRecord)).risk_level = ("LOW") :=
  (risk_level_thresholds []).2.2.2.2 rfl
